import Mathlib

/-!
Verification development for `src/app.py`, a FastAPI + Selenium LinkedIn
scraping service.  The Python source is shallowly embedded: browser
interactions are abstracted into explicit environment parameters (the
sequence of rendered result rows and page heights for the collection loop,
explicit failure points for the per-profile worker), while the control flow,
data handling and aggregation logic are translated statement by statement.
All definitions are executable so that concrete scenarios can be evaluated.
-/

/- ---------------------------------------------------------------------- -/
/- String utilities mirroring the Python primitives used by `app.py`.      -/
/- ---------------------------------------------------------------------- -/

/-- Check that token `tok` occurs at the start of `s` (character lists). -/
def listStartsWith : List Char → List Char → Bool
  | _, [] => true
  | [], _ :: _ => false
  | a :: as, b :: bs => a == b && listStartsWith as bs

/-- Check that token `tok` occurs contiguously somewhere inside `s`
(character lists). -/
def listContainsTok : List Char → List Char → Bool
  | [], tok => tok.isEmpty
  | a :: rest, tok => listStartsWith (a :: rest) tok || listContainsTok rest tok

/-- Case-insensitive search for any of the literal alternation tokens
`toks` inside `s`; models Python `re.search(tok1|tok2|..., s, re.IGNORECASE)`
for an alternation of literal tokens. -/
def reSearchCI (toks : List String) (s : String) : Bool :=
  toks.any fun tok => listContainsTok (s.data.map Char.toLower) tok.data

/-- Tokens of `RESUME_REGEX = re.compile(r"\.pdf|\.docx|\.doc|resume|cv",
re.IGNORECASE)` from `app.py`. -/
def RESUME_REGEX : List String := [".pdf", ".docx", ".doc", "resume", "cv"]

/-- `RESUME_REGEX.search(s)` as a Boolean. -/
def RESUME_REGEX_search (s : String) : Bool := reSearchCI RESUME_REGEX s

/-- Python `str.strip()`: remove leading and trailing whitespace. -/
def pyStrip (s : String) : String :=
  ⟨((s.data.dropWhile Char.isWhitespace).reverse.dropWhile Char.isWhitespace).reverse⟩

/-- Python `query.replace(" ", "_")` (single-character pattern). -/
def replaceSpaces (s : String) : String :=
  ⟨s.data.map fun c => if c == ' ' then '_' else c⟩

/-- Python list slice `l[:n]`, including the negative-`n` convention. -/
def pySliceTo {α : Type} (n : Int) (l : List α) : List α :=
  if 0 ≤ n then l.take n.toNat else l.take (l.length - (-n).toNat)

/-- Python `list(dict.fromkeys(l))` helper: keep the first occurrence of
each element, dropping later duplicates; `seen` accumulates what was kept. -/
def dedupAux (seen : List String) : List String → List String
  | [] => []
  | x :: xs => if x ∈ seen then dedupAux seen xs else x :: dedupAux (x :: seen) xs

/-- Python `list(dict.fromkeys(l))`: first-seen-order deduplication. -/
def pyDedup (l : List String) : List String := dedupAux [] l

/- ---------------------------------------------------------------------- -/
/- Constants from `app.py`.                                                -/
/- ---------------------------------------------------------------------- -/

def MAX_PROFILES_DEFAULT : Int := 20

def MAX_WORKERS : Nat := 6

def OUTPUT_DIR : String := "/app/output"

/-- Line 298 of `app.py`: `max_profiles = req.max_profiles or
MAX_PROFILES_DEFAULT`.  Python falsiness: both `None` and `0` select the
default; every other integer (negative ones included) is kept as-is. -/
def effectiveMaxProfiles (reqMax : Option Int) : Int :=
  match reqMax with
  | none => MAX_PROFILES_DEFAULT
  | some v => if v = 0 then MAX_PROFILES_DEFAULT else v

/- ---------------------------------------------------------------------- -/
/- `search_and_collect_profiles` (app.py lines 173-236).                   -/
/- ---------------------------------------------------------------------- -/

/-- Mutable state of the scroll/extract loop in
`search_and_collect_profiles`: the `profiles` list (candidates hold a
single field `profile_url`, so they are represented by the URL string),
the `seen` set (kept as a list, queried by membership), and the
`last_height` / `scroll_tries` stall-tracking pair. -/
structure CollectState where
  profiles : List String
  seen : List String
  last_height : Nat
  scroll_tries : Nat
deriving Repr, DecidableEq

/-- One extraction pass over the currently rendered result rows (`for li in
lis` body, app.py lines 206-223).  Each rendered row is `some href` when one
of the two anchor selectors produced an `href` attribute (with `None`
folded to the empty string by the code path `href and ...` being falsy) and
`none` when both selector lookups raised.  A row is appended only when the
cap has not been reached, the href is truthy, and it was not seen before. -/
def processLis (maxP : Int) : List (Option String) → CollectState → CollectState
  | [], st => st
  | li :: rest, st =>
    if (st.profiles.length : Int) < maxP then
      match li with
      | some href =>
        if href ≠ "" ∧ href ∉ st.seen then
          processLis maxP rest
            { st with profiles := st.profiles ++ [href], seen := href :: st.seen }
        else
          processLis maxP rest st
      | none => processLis maxP rest st
    else
      st

/-- The `while len(profiles) < max_profiles and scroll_tries < 30` loop of
`search_and_collect_profiles` (app.py lines 204-233), with the live page
abstracted as `env : Nat → List (Option String) × Nat` giving, for each
iteration, the rendered rows and the page scroll height read after
scrolling.  The Python loop has no fuel: `fuel` bounds how many iterations
we unfold, and `none` means the bound was hit with the loop still running. -/
def collectLoop (env : Nat → List (Option String) × Nat) (maxP : Int) :
    Nat → Nat → CollectState → Option CollectState
  | 0, _, st =>
    if (st.profiles.length : Int) < maxP ∧ st.scroll_tries < 30 then none else some st
  | fuel + 1, i, st =>
    if (st.profiles.length : Int) < maxP ∧ st.scroll_tries < 30 then
      let st1 := processLis maxP (env i).1 st
      let st2 :=
        if (env i).2 = st1.last_height then
          { st1 with scroll_tries := st1.scroll_tries + 1 }
        else
          { st1 with last_height := (env i).2, scroll_tries := 0 }
      collectLoop env maxP fuel (i + 1) st2
    else
      some st

/-- `search_and_collect_profiles(driver, query, max_profiles)` (app.py lines
173-236).  The driver is abstracted by: `page`, the site's response to the
submitted query (rendered rows and scroll height per loop iteration);
`h0`, the initial `document.body.scrollHeight`; and `searchInput`, whether
the search input element was located (`Except.error` models the
`RuntimeError("Search input not found")` raised when both locators time
out).  `Except.ok none` means the unbounded loop exceeded the fuel. -/
def search_and_collect_profiles (page : String → Nat → List (Option String) × Nat)
    (h0 : Nat) (fuel : Nat) (searchInput : Except String Unit)
    (query : String) (maxP : Int) : Except String (Option (List String)) :=
  match searchInput with
  | .error m => .error m
  | .ok _ =>
    match collectLoop (page query) maxP fuel 0
        { profiles := [], seen := [], last_height := h0, scroll_tries := 0 } with
    | none => Except.ok none
    | some st => Except.ok (some (pySliceTo maxP st.profiles))

/- ---------------------------------------------------------------------- -/
/- `detect_resume_worker` (app.py lines 239-286).                          -/
/- ---------------------------------------------------------------------- -/

/-- Result dictionary built by `detect_resume_worker` (app.py lines
244-249): `profile_url`, `resume_found`, `resume_links`, `error`. -/
structure ProfileCheckResult where
  profile_url : String
  resume_found : Bool
  resume_links : List String
  error : Option String
deriving Repr, DecidableEq

/-- Environment of one `detect_resume_worker` call.  The four failure
constructors are the points of the `try` block where an exception can
escape to the boundary handler (app.py lines 252-259): `create_driver`,
`login_linkedin`, `driver.get`, and the page-content extraction
(`page_source` / `find_elements`); the carried string is `str(e)`.
`ok page_html anchors` is a run with no boundary exception: `page_html` is
`driver.page_source` and `anchors` the href attribute of each `<a>` element
on the page (`none` when `get_attribute` raised, so the inner handler
skips the anchor; `some ""` covers a `None` attribute folded by
`a.get_attribute("href") or ""`). -/
inductive WorkerOutcome where
  | failCreate (msg : String)
  | failLogin (msg : String)
  | failNavigate (msg : String)
  | failExtract (msg : String)
  | ok (page_html : String) (anchors : List (Option String))
deriving Repr

/-- The anchor-filtering loop of `detect_resume_worker` (app.py lines
262-270): keep each href whose destination matches the file-extension
pattern or the resume/cv keyword pattern, in page order. -/
def collectAnchorLinks (anchors : List (Option String)) : List String :=
  anchors.filterMap fun a =>
    match a with
    | none => none
    | some href =>
      if reSearchCI [".pdf", ".docx", ".doc"] href || reSearchCI ["resume", "cv"] href then
        some href
      else none

/-- `detect_resume_worker(profile)` (app.py lines 239-286).  A boundary
exception yields the initial result with `error` set (lines 277-279); on a
clean run, if `RESUME_REGEX` matches the page source the anchors are
filtered and deduplicated in first-seen order (lines 260-274), otherwise the
initial all-false result is returned. -/
def detect_resume_worker (profile_url : String) (env : WorkerOutcome) :
    ProfileCheckResult :=
  match env with
  | .failCreate m | .failLogin m | .failNavigate m | .failExtract m =>
    { profile_url := profile_url, resume_found := false, resume_links := [],
      error := some m }
  | .ok page_html anchors =>
    if RESUME_REGEX_search page_html then
      { profile_url := profile_url, resume_found := true,
        resume_links := pyDedup (collectAnchorLinks anchors), error := none }
    else
      { profile_url := profile_url, resume_found := false, resume_links := [],
        error := none }

/- ---------------------------------------------------------------------- -/
/- `search_endpoint` (app.py lines 289-351).                               -/
/- ---------------------------------------------------------------------- -/

/-- The fan-out/fan-in of app.py lines 312-321, linearised in completion
order: for each completed future, append its result to `results` and bump
`found_count` when `resume_found` is truthy. -/
def runWorkers (wenv : String → WorkerOutcome) (order : List String) :
    List ProfileCheckResult × Nat :=
  order.foldl
    (fun acc p =>
      let res := detect_resume_worker p (wenv p)
      (acc.1 ++ [res], if res.resume_found then acc.2 + 1 else acc.2))
    ([], 0)

/-- The JSON object returned on success (app.py lines 332-339), together
with `csv_rows`, the full result list written to the CSV file (line 328-329). -/
structure RunSummary where
  status : String
  query : String
  profiles_checked : Nat
  resumes_found : Nat
  csv_path : String
  csv_rows : List ProfileCheckResult
  results_preview : List ProfileCheckResult
deriving Repr, DecidableEq

/-- Outcome of one call of the endpoint: an `HTTPException(status_code,
detail)` (the 404 raised at line 309 is re-raised unchanged by the
`except HTTPException` arm; any other exception becomes a 500, lines
340-345), or the success payload. -/
inductive RunOutcome where
  | httpError (status_code : Nat) (detail : String)
  | completed (s : RunSummary)
deriving Repr, DecidableEq

/-- Environment of the primary sequential phase of `search_endpoint`:
`create_driver` raised (line 303), `login_linkedin` raised (line 305), or
both succeeded and the collection phase runs against `searchInput` /
`page` / `h0` / `fuel` as in `search_and_collect_profiles`. -/
inductive PrimaryEnv where
  | createFail (msg : String)
  | loginFail (msg : String)
  | ok (searchInput : Except String Unit)
      (page : String → Nat → List (Option String) × Nat) (h0 : Nat) (fuel : Nat)

/-- `search_endpoint(req)` (app.py lines 289-351).  `completion` gives the
order in which the worker futures complete (`as_completed`), `timestamp`
the UTC timestamp string used in the CSV file name.  `none` models the
collection loop exceeding its fuel (the Python loop still running). -/
def search_endpoint (reqQuery : String) (reqMax : Option Int) (prim : PrimaryEnv)
    (wenv : String → WorkerOutcome) (completion : List String → List String)
    (timestamp : String) : Option RunOutcome :=
  let query := pyStrip reqQuery
  let max_profiles := effectiveMaxProfiles reqMax
  match prim with
  | .createFail m => some (.httpError 500 m)
  | .loginFail m => some (.httpError 500 m)
  | .ok si page h0 fuel =>
    match search_and_collect_profiles page h0 fuel si query max_profiles with
    | .error m => some (.httpError 500 m)
    | .ok none => none
    | .ok (some profiles) =>
      if profiles = [] then
        some (.httpError 404 "No profiles found for the given query")
      else
        let rf := runWorkers wenv (completion profiles)
        let csv_filename :=
          "results_" ++ replaceSpaces query ++ "_" ++ timestamp ++ ".csv"
        some (.completed
          { status := "completed"
            query := query
            profiles_checked := rf.1.length
            resumes_found := rf.2
            csv_path := OUTPUT_DIR ++ "/" ++ csv_filename
            csv_rows := rf.1
            results_preview := rf.1.take 10 })

/- ---------------------------------------------------------------------- -/
/- Session lifecycle events (for the resource-release property).           -/
/- ---------------------------------------------------------------------- -/

/-- Lifecycle events of browser-automation sessions.  Session 0 is the
primary driver of `search_endpoint`; session `k + 1` is the driver of the
`k`-th completed worker. -/
inductive SessEvent where
  | created (sid : Nat)
  | released (sid : Nat)
deriving Repr, DecidableEq

/-- Session events of one `detect_resume_worker` call: no event when
`create_driver` itself raised (`driver` stays `None`, so the `finally`
block at app.py lines 280-285 quits nothing); on every other path the
driver is created and then quit by that `finally` block. -/
def workerEvents (env : WorkerOutcome) (sid : Nat) : List SessEvent :=
  match env with
  | .failCreate _ => []
  | _ => [.created sid, .released sid]

/-- Session events of the worker pool, in completion order. -/
def workersEvents (wenv : String → WorkerOutcome) :
    List String → Nat → List SessEvent
  | [], _ => []
  | p :: rest, sid => workerEvents (wenv p) sid ++ workersEvents wenv rest (sid + 1)

/-- Session events of one `search_endpoint` call, mirroring its control
flow: the primary driver (session 0) is created at line 303 and quit by
the `finally` block at lines 346-351 on every exit path reached after its
creation; worker sessions contribute their own events during the fan-out
phase.  `none` again models the collection loop exceeding its fuel (on
that path Python is still inside the loop and no `finally` has run). -/
def endpointSessionEvents (reqQuery : String) (reqMax : Option Int)
    (prim : PrimaryEnv) (wenv : String → WorkerOutcome)
    (completion : List String → List String) : Option (List SessEvent) :=
  match prim with
  | .createFail _ => some []
  | .loginFail _ => some [.created 0, .released 0]
  | .ok si page h0 fuel =>
    match search_and_collect_profiles page h0 fuel si (pyStrip reqQuery)
        (effectiveMaxProfiles reqMax) with
    | .error _ => some [.created 0, .released 0]
    | .ok none => none
    | .ok (some profiles) =>
      if profiles = [] then some [.created 0, .released 0]
      else
        some (.created 0 ::
          (workersEvents wenv (completion profiles) 1 ++ [.released 0]))

/- ---------------------------------------------------------------------- -/
/- Concrete environments used in scenarios and witnesses.                  -/
/- ---------------------------------------------------------------------- -/

/-- A results feed rendering candidates `[A, B, B, C, D]` on every
iteration, with a constant scroll height of 100. -/
def pageABBCD : String → Nat → List (Option String) × Nat :=
  fun _ _ => ([some "A", some "B", some "B", some "C", some "D"], 100)

/-- A stalled results feed rendering the same five unique candidates on
every iteration, with a constant scroll height of 100. -/
def pageP5 : String → Nat → List (Option String) × Nat :=
  fun _ _ => ([some "P1", some "P2", some "P3", some "P4", some "P5"], 100)

/-- A results feed rendering candidates `[A, B, C]` on every iteration. -/
def pageABC : String → Nat → List (Option String) × Nat :=
  fun _ _ => ([some "A", some "B", some "C"], 100)

/-- A results feed that never renders any candidate row. -/
def pageNoResults : String → Nat → List (Option String) × Nat :=
  fun _ _ => ([], 100)

/-- Worker environment in which every profile check succeeds and finds a
resume link. -/
def wenvAllOk : String → WorkerOutcome :=
  fun _ => .ok "resume" [some "r.pdf"]

/-- Worker environment in which the check of profile `B` raises during
navigation and every other check succeeds. -/
def wenvOneFails : String → WorkerOutcome :=
  fun p => if p = "B" then .failNavigate "nav error" else .ok "My resume" [some "r.pdf"]

/-- Workers complete in dispatch order. -/
def compId : List String → List String := fun l => l

/-- The summary produced by `search_endpoint` for an all-whitespace query
against `pageABC` with `max_profiles = 1`, workers `wenvAllOk`, completion
order `compId` and timestamp `T`. -/
def sWitness : RunSummary :=
  { status := "completed", query := "", profiles_checked := 1, resumes_found := 1,
    csv_path := "/app/output/results__T.csv",
    csv_rows := [⟨"A", true, ["r.pdf"], none⟩],
    results_preview := [⟨"A", true, ["r.pdf"], none⟩] }

/-- Loop-state invariant of `search_and_collect_profiles`: the collected
candidate list has no duplicate `profile_url`, and everything collected has
been recorded in `seen`. -/
def CollectInv (st : CollectState) : Prop :=
  st.profiles.Nodup ∧ ∀ x ∈ st.profiles, x ∈ st.seen

/- ---------------------------------------------------------------------- -/
/- Lemmas about the collection loop.                                       -/
/- ---------------------------------------------------------------------- -/

theorem processLis_inv (maxP : Int) (lis : List (Option String)) :
    ∀ st : CollectState, CollectInv st → CollectInv (processLis maxP lis st) := by
  induction lis with
  | nil => intro st h; simpa [processLis] using h
  | cons li rest ih =>
    intro st h
    cases li with
    | none =>
      simp only [processLis]
      split
      · exact ih _ h
      · exact h
    | some href =>
      simp only [processLis]
      split
      · split
        · rename_i hcond
          apply ih
          constructor
          · have hnp : href ∉ st.profiles := fun hmem => hcond.2 (h.2 _ hmem)
            simp [List.nodup_append, h.1, hnp]
          · intro x hx
            rcases List.mem_append.mp hx with hx | hx
            · exact List.mem_cons_of_mem _ (h.2 _ hx)
            · simp at hx
              simp [hx]
        · exact ih _ h
      · exact h

theorem processLis_profiles_extend (maxP : Int) (lis : List (Option String)) :
    ∀ st : CollectState, st.profiles <+: (processLis maxP lis st).profiles := by
  induction lis with
  | nil => intro st; simp [processLis]
  | cons li rest ih =>
    intro st
    cases li with
    | none =>
      simp only [processLis]
      split
      · exact ih _
      · exact List.prefix_rfl
    | some href =>
      simp only [processLis]
      split
      · split
        · exact (List.prefix_append st.profiles [href]).trans
            (ih { st with profiles := st.profiles ++ [href], seen := href :: st.seen })
        · exact ih _
      · exact List.prefix_rfl

theorem processLis_last_height (maxP : Int) (lis : List (Option String)) :
    ∀ st : CollectState, (processLis maxP lis st).last_height = st.last_height := by
  induction lis with
  | nil => intro st; simp [processLis]
  | cons li rest ih =>
    intro st
    cases li with
    | none =>
      simp only [processLis]
      split
      · exact ih _
      · rfl
    | some href =>
      simp only [processLis]
      split
      · split <;> exact ih _
      · rfl

theorem processLis_scroll_tries (maxP : Int) (lis : List (Option String)) :
    ∀ st : CollectState, (processLis maxP lis st).scroll_tries = st.scroll_tries := by
  induction lis with
  | nil => intro st; simp [processLis]
  | cons li rest ih =>
    intro st
    cases li with
    | none =>
      simp only [processLis]
      split
      · exact ih _
      · rfl
    | some href =>
      simp only [processLis]
      split
      · split <;> exact ih _
      · rfl

theorem collectLoop_inv (env : Nat → List (Option String) × Nat) (maxP : Int) :
    ∀ fuel i : Nat, ∀ st st' : CollectState, CollectInv st →
      collectLoop env maxP fuel i st = some st' → CollectInv st' := by
  intro fuel
  induction fuel with
  | zero =>
    intro i st st' hinv h
    simp only [collectLoop] at h
    split at h
    · exact absurd h (by simp)
    · cases h; exact hinv
  | succ n ih =>
    intro i st st' hinv h
    simp only [collectLoop] at h
    split at h
    · exact ih (i + 1) _ st' (by split <;> exact processLis_inv _ _ _ hinv) h
    · cases h; exact hinv

theorem collectLoop_profiles_extend (env : Nat → List (Option String) × Nat)
    (maxP : Int) :
    ∀ fuel i : Nat, ∀ st st' : CollectState,
      collectLoop env maxP fuel i st = some st' → st.profiles <+: st'.profiles := by
  intro fuel
  induction fuel with
  | zero =>
    intro i st st' h
    simp only [collectLoop] at h
    split at h
    · exact absurd h (by simp)
    · cases h; exact List.prefix_rfl
  | succ n ih =>
    intro i st st' h
    simp only [collectLoop] at h
    split at h
    · refine (?_ : st.profiles <+: _).trans (ih (i + 1) _ st' h)
      split <;> exact processLis_profiles_extend _ _ _
    · cases h; exact List.prefix_rfl

theorem collectLoop_stall_exits (env : Nat → List (Option String) × Nat)
    (maxP : Int) (h0 : Nat) (hh : ∀ j, (env j).2 = h0) :
    ∀ fuel i : Nat, ∀ st : CollectState, st.last_height = h0 →
      30 ≤ st.scroll_tries + fuel →
      ∃ st', collectLoop env maxP fuel i st = some st' := by
  intro fuel
  induction fuel with
  | zero =>
    intro i st hlh hle
    simp only [collectLoop]
    split
    · rename_i hguard; omega
    · exact ⟨st, rfl⟩
  | succ n ih =>
    intro i st hlh hle
    simp only [collectLoop]
    split
    · rename_i hguard
      rw [hh i, processLis_last_height, hlh, if_pos rfl]
      refine ih (i + 1) _ ?_ ?_
      · simp [processLis_last_height, hlh]
      · simp [processLis_scroll_tries]; omega
    · exact ⟨st, rfl⟩

theorem collectLoop_nonpos (env : Nat → List (Option String) × Nat)
    (maxP : Int) (hmp : maxP ≤ 0) :
    ∀ fuel i : Nat, ∀ st : CollectState, (st.profiles.length : Int) = 0 →
      collectLoop env maxP fuel i st = some st := by
  intro fuel i st hlen
  cases fuel <;> simp only [collectLoop] <;> rw [if_neg (by omega)]

/- ---------------------------------------------------------------------- -/
/- Lemmas about deduplication and the worker.                              -/
/- ---------------------------------------------------------------------- -/

theorem mem_dedupAux : ∀ (l seen : List String) (x : String),
    x ∈ dedupAux seen l ↔ x ∈ l ∧ x ∉ seen := by
  intro l
  induction l with
  | nil => intro seen x; simp [dedupAux]
  | cons a as ih =>
    intro seen x
    simp only [dedupAux]
    split
    · rename_i ha
      rw [ih]
      constructor
      · exact fun h => ⟨List.mem_cons_of_mem _ h.1, h.2⟩
      · rintro ⟨h1, h2⟩
        refine ⟨?_, h2⟩
        rcases List.mem_cons.mp h1 with rfl | h1
        · exact absurd ha h2
        · exact h1
    · rename_i ha
      constructor
      · intro h
        rcases List.mem_cons.mp h with rfl | h
        · exact ⟨List.mem_cons_self _ _, ha⟩
        · have h' := (ih (a :: seen) x).mp h
          exact ⟨List.mem_cons_of_mem _ h'.1,
            fun hs => h'.2 (List.mem_cons_of_mem _ hs)⟩
      · rintro ⟨h1, h2⟩
        by_cases hxa : x = a
        · exact hxa ▸ List.mem_cons_self _ _
        · refine List.mem_cons_of_mem _ ((ih (a :: seen) x).mpr ⟨?_, ?_⟩)
          · rcases List.mem_cons.mp h1 with rfl | h1
            · exact absurd rfl hxa
            · exact h1
          · intro hs
            rcases List.mem_cons.mp hs with rfl | hs
            · exact hxa rfl
            · exact h2 hs

theorem dedupAux_sublist : ∀ (l seen : List String), List.Sublist (dedupAux seen l) l := by
  intro l
  induction l with
  | nil => intro seen; simp [dedupAux]
  | cons a as ih =>
    intro seen
    simp only [dedupAux]
    split
    · exact (ih seen).cons a
    · exact (ih (a :: seen)).cons₂ a

theorem dedupAux_nodup : ∀ (l seen : List String), (dedupAux seen l).Nodup := by
  intro l
  induction l with
  | nil => intro seen; simp [dedupAux]
  | cons a as ih =>
    intro seen
    simp only [dedupAux]
    split
    · exact ih seen
    · refine List.nodup_cons.mpr ⟨?_, ih (a :: seen)⟩
      intro hmem
      exact ((mem_dedupAux as (a :: seen) a).mp hmem).2 (List.mem_cons_self a seen)

theorem collectAnchorLinks_matches (anchors : List (Option String)) :
    ∀ x ∈ collectAnchorLinks anchors,
      (reSearchCI [".pdf", ".docx", ".doc"] x || reSearchCI ["resume", "cv"] x) = true := by
  intro x hx
  simp only [collectAnchorLinks, List.mem_filterMap] at hx
  obtain ⟨a, _, ha⟩ := hx
  cases a with
  | none => cases ha
  | some href =>
    simp only at ha
    split at ha
    · cases ha; assumption
    · cases ha

theorem detect_resume_worker_profile_url (p : String) (e : WorkerOutcome) :
    (detect_resume_worker p e).profile_url = p := by
  cases e with
  | ok html anchors =>
    by_cases hm : RESUME_REGEX_search html <;> simp [detect_resume_worker, hm]
  | failCreate m => rfl
  | failLogin m => rfl
  | failNavigate m => rfl
  | failExtract m => rfl

/- ---------------------------------------------------------------------- -/
/- Lemmas about the fan-out/fan-in aggregation.                            -/
/- ---------------------------------------------------------------------- -/

theorem runWorkers_foldl (wenv : String → WorkerOutcome) :
    ∀ (order : List String) (acc : List ProfileCheckResult × Nat),
      order.foldl
        (fun acc p =>
          let res := detect_resume_worker p (wenv p)
          (acc.1 ++ [res], if res.resume_found then acc.2 + 1 else acc.2)) acc =
      (acc.1 ++ order.map (fun p => detect_resume_worker p (wenv p)),
       acc.2 + (order.map fun p => detect_resume_worker p (wenv p)).countP
         (fun r => r.resume_found)) := by
  intro order
  induction order with
  | nil => intro acc; simp
  | cons p ps ih =>
    intro acc
    simp only [List.foldl_cons, ih, List.map_cons, List.countP_cons,
      List.append_assoc, List.singleton_append]
    rw [Prod.mk.injEq]
    refine ⟨rfl, ?_⟩
    split <;> rename_i hf
    all_goals simp [hf]
    all_goals omega

theorem runWorkers_fst (wenv : String → WorkerOutcome) (order : List String) :
    (runWorkers wenv order).1 = order.map fun p => detect_resume_worker p (wenv p) := by
  simp [runWorkers, runWorkers_foldl]

theorem runWorkers_snd (wenv : String → WorkerOutcome) (order : List String) :
    (runWorkers wenv order).2 =
      (runWorkers wenv order).1.countP fun r => r.resume_found := by
  simp [runWorkers, runWorkers_foldl]

/- ---------------------------------------------------------------------- -/
/- Lemmas about session lifecycle events.                                  -/
/- ---------------------------------------------------------------------- -/

theorem workerEvents_count (e : WorkerOutcome) (sid0 sid : Nat) :
    (workerEvents e sid0).count (SessEvent.created sid) =
      (workerEvents e sid0).count (SessEvent.released sid) := by
  cases e <;> simp [workerEvents, List.count_cons, List.count_nil]

theorem pair_count (sid0 sid : Nat) :
    ([SessEvent.created sid0, SessEvent.released sid0]).count (SessEvent.created sid) =
      ([SessEvent.created sid0, SessEvent.released sid0]).count (SessEvent.released sid) := by
  simp [List.count_cons, List.count_nil]

theorem workersEvents_count (wenv : String → WorkerOutcome) :
    ∀ (order : List String) (sid0 sid : Nat),
      (workersEvents wenv order sid0).count (SessEvent.created sid) =
        (workersEvents wenv order sid0).count (SessEvent.released sid) := by
  intro order
  induction order with
  | nil => intro sid0 sid; simp [workersEvents]
  | cons p ps ih =>
    intro sid0 sid
    simp only [workersEvents, List.count_append]
    rw [workerEvents_count, ih]

/- ---------------------------------------------------------------------- -/
/- Claim theorems.                                                         -/
/- ---------------------------------------------------------------------- -/

/-- C1: every collection run returns a list with no duplicate profile_url
values, of length at most max_profiles, in discovery (first-seen) order
(the collector only ever appends, so earlier discoveries keep their
positions); in particular a results feed rendering candidates
`[A, B, B, C, D]` with `max_profiles = 3` returns exactly `[A, B, C]`. -/
theorem collector_nodup_capped_in_order :
    (∀ (page : String → Nat → List (Option String) × Nat) (h0 fuel : Nat)
        (si : Except String Unit) (q : String) (maxP : Int) (res : List String),
      0 < maxP →
      search_and_collect_profiles page h0 fuel si q maxP = .ok (some res) →
      res.Nodup ∧ (res.length : Int) ≤ maxP) ∧
    (∀ (env : Nat → List (Option String) × Nat) (maxP : Int) (fuel i : Nat)
        (st st' : CollectState),
      collectLoop env maxP fuel i st = some st' → st.profiles <+: st'.profiles) ∧
    search_and_collect_profiles pageABBCD 100 2 (.ok ()) "Software Engineer" 3 =
      .ok (some ["A", "B", "C"]) := by
  refine ⟨?_, ?_, rfl⟩
  · intro page h0 fuel si q maxP res hpos hrun
    cases si with
    | error m => exact absurd hrun (by simp [search_and_collect_profiles])
    | ok u =>
      simp only [search_and_collect_profiles] at hrun
      cases hcl : collectLoop (page q) maxP fuel 0
          { profiles := [], seen := [], last_height := h0, scroll_tries := 0 } with
      | none =>
        rw [hcl] at hrun
        simp at hrun
      | some st =>
        rw [hcl] at hrun
        simp only [Except.ok.injEq, Option.some.injEq] at hrun
        have hinv := collectLoop_inv (page q) maxP fuel 0 _ st
          ⟨List.nodup_nil, by simp⟩ hcl
        have htake : pySliceTo maxP st.profiles = st.profiles.take maxP.toNat := by
          simp [pySliceTo, le_of_lt hpos]
        constructor
        · rw [← hrun, htake]
          exact List.Nodup.sublist (List.take_sublist _ _) hinv.1
        · rw [← hrun, htake]
          have hlen := List.length_take_le maxP.toNat st.profiles
          omega
  · intro env maxP fuel i st st' h
    exact collectLoop_profiles_extend env maxP fuel i st st' h

/-- C1 witness: the scenario feed `[A, B, B, C, D]` with cap 3 satisfies the
no-duplicates and length-bound conclusions. -/
theorem collector_nodup_capped_in_order_witness :
    (["A", "B", "C"] : List String).Nodup ∧
      (((["A", "B", "C"] : List String).length : Int) ≤ 3) :=
  collector_nodup_capped_in_order.1 pageABBCD 100 2 (.ok ()) "Software Engineer" 3
    ["A", "B", "C"] (by decide) rfl

/-- C5: the scroll/extract loop terminates: on any page whose scroll height
never changes, fuel 30 (the stall bound) already suffices for the loop to
exit normally; and a page stalled at 5 unique candidates with
`max_profiles = 20` yields exactly those 5 candidates and no error. -/
theorem collector_stall_terminates :
    (∀ (page : String → Nat → List (Option String) × Nat) (q : String)
        (h0 : Nat) (maxP : Int),
      (∀ i, (page q i).2 = h0) →
      ∃ res, search_and_collect_profiles page h0 30 (.ok ()) q maxP =
        .ok (some res)) ∧
    search_and_collect_profiles pageP5 100 30 (.ok ()) "q" 20 =
      .ok (some ["P1", "P2", "P3", "P4", "P5"]) := by
  refine ⟨?_, rfl⟩
  intro page q h0 maxP hh
  obtain ⟨st', hst⟩ := collectLoop_stall_exits (page q) maxP h0 hh 30 0
    { profiles := [], seen := [], last_height := h0, scroll_tries := 0 }
    rfl (by omega)
  refine ⟨pySliceTo maxP st'.profiles, ?_⟩
  simp only [search_and_collect_profiles]
  rw [hst]

/-- C5 witness: the stalled five-candidate page terminates with a result. -/
theorem collector_stall_terminates_witness :
    ∃ res, search_and_collect_profiles pageP5 100 30 (.ok ()) "q" 20 =
      .ok (some res) :=
  collector_stall_terminates.1 pageP5 "q" 100 20 (fun _ => rfl)

/-- C2: whenever a ProfileCheckResult built by detect_resume_worker carries
a non-null error, its resume_found is false and its resume_links is empty. -/
theorem worker_error_no_detection (p : String) (env : WorkerOutcome)
    (h : (detect_resume_worker p env).error ≠ none) :
    (detect_resume_worker p env).resume_found = false ∧
      (detect_resume_worker p env).resume_links = [] := by
  cases env with
  | ok html anchors =>
    by_cases hm : RESUME_REGEX_search html
    · exact absurd (by simp [detect_resume_worker, hm]) h
    · simp [detect_resume_worker, hm]
  | failCreate m => exact ⟨rfl, rfl⟩
  | failLogin m => exact ⟨rfl, rfl⟩
  | failNavigate m => exact ⟨rfl, rfl⟩
  | failExtract m => exact ⟨rfl, rfl⟩

/-- C2 witness: a worker whose navigation raised reports the error with no
positive detection. -/
theorem worker_error_no_detection_witness :
    (detect_resume_worker "u" (.failNavigate "nav timeout")).error ≠ none ∧
      (detect_resume_worker "u" (.failNavigate "nav timeout")).resume_found = false ∧
      (detect_resume_worker "u" (.failNavigate "nav timeout")).resume_links = [] :=
  ⟨by decide, worker_error_no_detection "u" (.failNavigate "nav timeout") (by decide)⟩

/-- C3: detect_resume_worker is total at its boundary: every exception point
(session creation, login, navigation, extraction) is converted into the
result's error field with all other fields at their initial values, and a
clean run returns a result with a null error; in all cases a
ProfileCheckResult for the requested profile is returned. -/
theorem worker_total_boundary :
    (∀ p m : String,
      detect_resume_worker p (.failCreate m) =
        { profile_url := p, resume_found := false, resume_links := [],
          error := some m } ∧
      detect_resume_worker p (.failLogin m) =
        { profile_url := p, resume_found := false, resume_links := [],
          error := some m } ∧
      detect_resume_worker p (.failNavigate m) =
        { profile_url := p, resume_found := false, resume_links := [],
          error := some m } ∧
      detect_resume_worker p (.failExtract m) =
        { profile_url := p, resume_found := false, resume_links := [],
          error := some m }) ∧
    (∀ (p html : String) (anchors : List (Option String)),
      (detect_resume_worker p (.ok html anchors)).error = none ∧
      (detect_resume_worker p (.ok html anchors)).profile_url = p) := by
  constructor
  · intro p m
    exact ⟨rfl, rfl, rfl, rfl⟩
  · intro p html anchors
    by_cases hm : RESUME_REGEX_search html <;> simp [detect_resume_worker, hm]

/-- C8: for a successful check that reports resume_found = true, the
resume_links list has no duplicate entries, is a subsequence of the
page-order filtered anchor list (so first-seen order is preserved), keeps
exactly the matching anchors, and every retained link's destination
matches the resume pattern (document extension or resume/cv keyword). -/
theorem worker_links_nodup_ordered_matching (p html : String)
    (anchors : List (Option String))
    (h : (detect_resume_worker p (.ok html anchors)).resume_found = true) :
    (detect_resume_worker p (.ok html anchors)).resume_links.Nodup ∧
    List.Sublist (detect_resume_worker p (.ok html anchors)).resume_links
      (collectAnchorLinks anchors) ∧
    (∀ x, x ∈ (detect_resume_worker p (.ok html anchors)).resume_links ↔
      x ∈ collectAnchorLinks anchors) ∧
    (∀ x ∈ (detect_resume_worker p (.ok html anchors)).resume_links,
      (reSearchCI [".pdf", ".docx", ".doc"] x ||
        reSearchCI ["resume", "cv"] x) = true) := by
  by_cases hm : RESUME_REGEX_search html
  · simp only [detect_resume_worker, hm, if_true, pyDedup]
    refine ⟨dedupAux_nodup _ _, dedupAux_sublist _ _, ?_, ?_⟩
    · intro x
      rw [mem_dedupAux]
      simp
    · intro x hx
      rw [mem_dedupAux] at hx
      exact collectAnchorLinks_matches anchors x hx.1
  · exact absurd h (by simp [detect_resume_worker, hm])

/-- C8 witness: a page matching the resume pattern with duplicate and
non-matching anchors keeps only the matching ones, deduplicated. -/
theorem worker_links_nodup_ordered_matching_witness :
    (detect_resume_worker "u" (.ok "resume"
      [some "a.pdf", none, some "a.pdf", some "x.png", some "my-cv"])).resume_links.Nodup ∧
    List.Sublist (detect_resume_worker "u" (.ok "resume"
        [some "a.pdf", none, some "a.pdf", some "x.png", some "my-cv"])).resume_links
      (collectAnchorLinks [some "a.pdf", none, some "a.pdf", some "x.png", some "my-cv"]) ∧
    (∀ x, x ∈ (detect_resume_worker "u" (.ok "resume"
        [some "a.pdf", none, some "a.pdf", some "x.png", some "my-cv"])).resume_links ↔
      x ∈ collectAnchorLinks [some "a.pdf", none, some "a.pdf", some "x.png", some "my-cv"]) ∧
    (∀ x ∈ (detect_resume_worker "u" (.ok "resume"
        [some "a.pdf", none, some "a.pdf", some "x.png", some "my-cv"])).resume_links,
      (reSearchCI [".pdf", ".docx", ".doc"] x ||
        reSearchCI ["resume", "cv"] x) = true) :=
  worker_links_nodup_ordered_matching "u" "resume"
    [some "a.pdf", none, some "a.pdf", some "x.png", some "my-cv"] (by decide)

/-- C6 counterexample: a caller-supplied `max_profiles = -5` is not clamped
or rejected: the effective value is `-5` itself (violating
`max_profiles ≥ 1`) and it reaches the collector unmodified, where it
yields an empty candidate list. -/
theorem max_profiles_negative_cex :
    effectiveMaxProfiles (some (-5)) = -5 ∧
    ¬(1 ≤ effectiveMaxProfiles (some (-5))) ∧
    search_and_collect_profiles pageABC 100 2 (.ok ()) "q"
      (effectiveMaxProfiles (some (-5))) = .ok (some []) :=
  ⟨rfl, by decide, rfl⟩

/-- C6 amended: an omitted or zero caller value falls back to the default
20 (Python falsiness), so in those cases the effective `max_profiles` is
≥ 1, and every caller value ≥ 1 is kept; but a negative caller value
passes through to the collector unmodified — the run is still never
unbounded, because with a nonpositive `max_profiles` the collector
returns the empty list immediately. -/
theorem max_profiles_clamping_amended :
    effectiveMaxProfiles none = MAX_PROFILES_DEFAULT ∧
    effectiveMaxProfiles (some 0) = MAX_PROFILES_DEFAULT ∧
    (∀ v : Int, 1 ≤ v → effectiveMaxProfiles (some v) = v ∧
      1 ≤ effectiveMaxProfiles (some v)) ∧
    (∀ v : Int, v < 0 → effectiveMaxProfiles (some v) = v) ∧
    (∀ (page : String → Nat → List (Option String) × Nat) (h0 fuel : Nat)
        (q : String) (maxP : Int), maxP ≤ 0 →
      search_and_collect_profiles page h0 fuel (.ok ()) q maxP = .ok (some [])) := by
  refine ⟨rfl, rfl, ?_, ?_, ?_⟩
  · intro v hv
    have hne : v ≠ 0 := by omega
    constructor <;> simp [effectiveMaxProfiles, hne, hv]
  · intro v hv
    have hne : v ≠ 0 := by omega
    simp [effectiveMaxProfiles, hne]
  · intro page h0 fuel q maxP hmp
    simp only [search_and_collect_profiles]
    rw [collectLoop_nonpos (page q) maxP hmp fuel 0 _ (by simp)]
    simp [pySliceTo]

/-- C6 amended witness: a caller value of 7 is kept and satisfies the
invariant. -/
theorem max_profiles_clamping_amended_witness :
    effectiveMaxProfiles (some 7) = 7 ∧ 1 ≤ effectiveMaxProfiles (some 7) :=
  max_profiles_clamping_amended.2.2.1 7 (by decide)

/-- C4: for every run dispatching N collected candidates to the worker
pool, the endpoint completes with exactly N ProfileCheckResult entries —
one per candidate, whatever the individual worker outcomes (so one
worker's failure never removes sibling results) — and the reported
resumes_found equals the number of results whose resume_found is true. -/
theorem endpoint_one_result_per_candidate (q : String) (reqMax : Option Int)
    (si : Except String Unit) (page : String → Nat → List (Option String) × Nat)
    (h0 fuel : Nat) (wenv : String → WorkerOutcome)
    (comp : List String → List String) (ts : String) (profiles : List String)
    (hcol : search_and_collect_profiles page h0 fuel si (pyStrip q)
      (effectiveMaxProfiles reqMax) = .ok (some profiles))
    (hne : profiles ≠ [])
    (hperm : (comp profiles).Perm profiles) :
    ∃ s : RunSummary,
      search_endpoint q reqMax (.ok si page h0 fuel) wenv comp ts =
        some (.completed s) ∧
      s.csv_rows.length = profiles.length ∧
      s.profiles_checked = profiles.length ∧
      (s.csv_rows.map fun r => r.profile_url).Perm profiles ∧
      s.resumes_found = s.csv_rows.countP fun r => r.resume_found := by
  refine ⟨⟨"completed", pyStrip q, (runWorkers wenv (comp profiles)).1.length,
      (runWorkers wenv (comp profiles)).2,
      OUTPUT_DIR ++ "/" ++
        ("results_" ++ replaceSpaces (pyStrip q) ++ "_" ++ ts ++ ".csv"),
      (runWorkers wenv (comp profiles)).1,
      (runWorkers wenv (comp profiles)).1.take 10⟩, ?_, ?_, ?_, ?_, ?_⟩
  · simp only [search_endpoint, hcol]
    rw [if_neg hne]
  · simp only [runWorkers_fst, List.length_map]
    exact hperm.length_eq
  · simp only [runWorkers_fst, List.length_map]
    exact hperm.length_eq
  · simp only [runWorkers_fst, List.map_map]
    have hmap : ((fun r : ProfileCheckResult => r.profile_url) ∘
        fun p => detect_resume_worker p (wenv p)) = id := by
      funext x
      simp [Function.comp, detect_resume_worker_profile_url]
    rw [hmap, List.map_id]
    exact hperm
  · exact runWorkers_snd wenv (comp profiles)

/-- C4 witness: three dispatched candidates, one worker raising during
navigation — the result list still has three entries, one per candidate,
and resumes_found counts the successful detections. -/
theorem endpoint_one_result_per_candidate_witness :
    ∃ s : RunSummary,
      search_endpoint "Software Engineer" (some 3) (.ok (.ok ()) pageABC 100 2)
        wenvOneFails compId "20240101T000000Z" = some (.completed s) ∧
      s.csv_rows.length = (["A", "B", "C"] : List String).length ∧
      s.profiles_checked = (["A", "B", "C"] : List String).length ∧
      (s.csv_rows.map fun r => r.profile_url).Perm ["A", "B", "C"] ∧
      s.resumes_found = s.csv_rows.countP fun r => r.resume_found :=
  endpoint_one_result_per_candidate "Software Engineer" (some 3) (.ok ()) pageABC
    100 2 wenvOneFails compId "20240101T000000Z" ["A", "B", "C"] rfl
    (by decide) (List.Perm.refl _)

/-- C7: an empty candidate list after a successful collection pass yields
the distinct 404 not-found outcome, while primary-phase infrastructure
failures (session creation, login, search input) yield generic 500
failures; the two outcomes are distinguishable by the caller. -/
theorem endpoint_not_found_distinct :
    (∀ (q : String) (reqMax : Option Int) (si : Except String Unit)
        (page : String → Nat → List (Option String) × Nat) (h0 fuel : Nat)
        (wenv : String → WorkerOutcome) (comp : List String → List String)
        (ts : String),
      search_and_collect_profiles page h0 fuel si (pyStrip q)
        (effectiveMaxProfiles reqMax) = .ok (some []) →
      search_endpoint q reqMax (.ok si page h0 fuel) wenv comp ts =
        some (.httpError 404 "No profiles found for the given query")) ∧
    (∀ (q : String) (reqMax : Option Int) (m : String)
        (wenv : String → WorkerOutcome) (comp : List String → List String)
        (ts : String),
      search_endpoint q reqMax (.createFail m) wenv comp ts =
        some (.httpError 500 m) ∧
      search_endpoint q reqMax (.loginFail m) wenv comp ts =
        some (.httpError 500 m)) ∧
    (∀ (q : String) (reqMax : Option Int) (m : String)
        (page : String → Nat → List (Option String) × Nat) (h0 fuel : Nat)
        (wenv : String → WorkerOutcome) (comp : List String → List String)
        (ts : String),
      search_endpoint q reqMax (.ok (.error m) page h0 fuel) wenv comp ts =
        some (.httpError 500 m)) ∧
    (∀ (d1 d2 : String) (s : RunSummary),
      RunOutcome.httpError 404 d1 ≠ RunOutcome.httpError 500 d2 ∧
      RunOutcome.httpError 404 d1 ≠ RunOutcome.completed s) := by
  refine ⟨?_, ?_, ?_, ?_⟩
  · intro q reqMax si page h0 fuel wenv comp ts hcol
    simp [search_endpoint, hcol]
  · intro q reqMax m wenv comp ts
    exact ⟨rfl, rfl⟩
  · intro q reqMax m page h0 fuel wenv comp ts
    rfl
  · intro d1 d2 s
    refine ⟨fun hcon => ?_, fun hcon => ?_⟩
    · injection hcon with hsc hd
      exact absurd hsc (by decide)
    · exact RunOutcome.noConfusion hcon

/-- C7 witness: a page that renders no candidate rows terminates the
collection pass with an empty list, and the endpoint returns the 404
not-found outcome. -/
theorem endpoint_not_found_distinct_witness :
    search_endpoint "q" none (.ok (.ok ()) pageNoResults 100 30) wenvAllOk
      compId "T" = some (.httpError 404 "No profiles found for the given query") :=
  endpoint_not_found_distinct.1 "q" none (.ok ()) pageNoResults 100 30 wenvAllOk
    compId "T" rfl

/-- C9: on every exit path of a run, every session that was created — the
primary session and each worker's session — is also released: in the
event trace of any completed endpoint call, the number of creations of
each session equals the number of its releases. -/
theorem endpoint_sessions_released (q : String) (reqMax : Option Int)
    (prim : PrimaryEnv) (wenv : String → WorkerOutcome)
    (comp : List String → List String) (evs : List SessEvent)
    (h : endpointSessionEvents q reqMax prim wenv comp = some evs) (sid : Nat) :
    evs.count (.created sid) = evs.count (.released sid) := by
  cases prim with
  | createFail m =>
    simp only [endpointSessionEvents, Option.some.injEq] at h
    subst h
    rfl
  | loginFail m =>
    simp only [endpointSessionEvents, Option.some.injEq] at h
    subst h
    exact pair_count 0 sid
  | ok si page h0 fuel =>
    simp only [endpointSessionEvents] at h
    cases hcol : search_and_collect_profiles page h0 fuel si (pyStrip q)
        (effectiveMaxProfiles reqMax) with
    | error m =>
      rw [hcol] at h
      simp only [Option.some.injEq] at h
      subst h
      exact pair_count 0 sid
    | ok o =>
      cases o with
      | none =>
        rw [hcol] at h
        simp at h
      | some profiles =>
        rw [hcol] at h
        by_cases hpe : profiles = []
        · simp only [hpe, if_pos, Option.some.injEq] at h
          subst h
          exact pair_count 0 sid
        · simp only [if_neg hpe, Option.some.injEq] at h
          subst h
          simp only [List.count_cons, List.count_append]
          rw [workersEvents_count]
          by_cases hs : sid = 0 <;> simp [hs, List.count_cons, List.count_nil]

/-- C9 witness: a full run over three candidates (one worker failing
during navigation) creates sessions 0–3 and releases each of them; in
particular session 2 is created and released exactly once. -/
theorem endpoint_sessions_released_witness :
    ([SessEvent.created 0, SessEvent.created 1, SessEvent.released 1,
      SessEvent.created 2, SessEvent.released 2, SessEvent.created 3,
      SessEvent.released 3, SessEvent.released 0]).count (SessEvent.created 2) =
    ([SessEvent.created 0, SessEvent.created 1, SessEvent.released 1,
      SessEvent.created 2, SessEvent.released 2, SessEvent.created 3,
      SessEvent.released 3, SessEvent.released 0]).count (SessEvent.released 2) :=
  endpoint_sessions_released "q" (some 3) (.ok (.ok ()) pageABC 100 2)
    wenvOneFails compId
    [SessEvent.created 0, SessEvent.created 1, SessEvent.released 1,
      SessEvent.created 2, SessEvent.released 2, SessEvent.created 3,
      SessEvent.released 3, SessEvent.released 0] rfl 2

/-- C10: the endpoint strips the incoming query of leading and trailing
whitespace before using it — every completed run's reported query is the
stripped query, the CSV artifact is named from the stripped query, and the
collector was invoked with the stripped query — and an all-whitespace
query is not rejected: the run proceeds with the empty string. -/
theorem endpoint_query_stripped :
    (∀ (q : String) (reqMax : Option Int) (si : Except String Unit)
        (page : String → Nat → List (Option String) × Nat) (h0 fuel : Nat)
        (wenv : String → WorkerOutcome) (comp : List String → List String)
        (ts : String) (s : RunSummary),
      search_endpoint q reqMax (.ok si page h0 fuel) wenv comp ts =
        some (.completed s) →
      s.query = pyStrip q ∧
      s.csv_path = OUTPUT_DIR ++ "/" ++
        ("results_" ++ replaceSpaces (pyStrip q) ++ "_" ++ ts ++ ".csv") ∧
      ∃ profiles, profiles ≠ [] ∧
        search_and_collect_profiles page h0 fuel si (pyStrip q)
          (effectiveMaxProfiles reqMax) = .ok (some profiles)) ∧
    (search_endpoint "   " (some 1) (.ok (.ok ()) pageABC 100 2) wenvAllOk
        compId "T" = some (.completed sWitness) ∧ sWitness.query = "") := by
  constructor
  · intro q reqMax si page h0 fuel wenv comp ts s h
    simp only [search_endpoint] at h
    cases hcol : search_and_collect_profiles page h0 fuel si (pyStrip q)
        (effectiveMaxProfiles reqMax) with
    | error m =>
      rw [hcol] at h
      simp at h
    | ok o =>
      cases o with
      | none =>
        rw [hcol] at h
        simp at h
      | some profiles =>
        rw [hcol] at h
        by_cases hpe : profiles = []
        · simp [hpe] at h
        · simp only [if_neg hpe, Option.some.injEq,
            RunOutcome.completed.injEq] at h
          subst h
          exact ⟨rfl, rfl, profiles, hpe, rfl⟩
  · exact ⟨rfl, rfl⟩

/-- C10 witness: a completed run for the all-whitespace query reports the
empty stripped query, names the CSV from it, and the collector ran with
the stripped query. -/
theorem endpoint_query_stripped_witness :
    sWitness.query = pyStrip "   " ∧
    sWitness.csv_path = OUTPUT_DIR ++ "/" ++
      ("results_" ++ replaceSpaces (pyStrip "   ") ++ "_" ++ "T" ++ ".csv") ∧
    ∃ profiles, profiles ≠ [] ∧
      search_and_collect_profiles pageABC 100 2 (.ok ()) (pyStrip "   ")
        (effectiveMaxProfiles (some 1)) = .ok (some profiles) :=
  endpoint_query_stripped.1 "   " (some 1) (.ok ()) pageABC 100 2 wenvAllOk
    compId "T" sWitness rfl
